import Mathlib

/-!
Shallow embedding of the StellarBootcamp Soroban counters:
* `CrossCounter` embeds `src/soroban/cross-contract/src/cross_contract.rs`
  (the access-controlled counter `CrossCounterContract`);
* `Counter` embeds `src/soroban/counter/src/contract.rs`
  (the baseline `CounterContract`).

Machine integers (`u64`) are represented as `Nat` with explicit clamping at
`MAX_U64` for saturating addition; `Nat` subtraction is already clamped at 0,
which coincides with `u64::saturating_sub` on values `≤ MAX_U64`.

The authorization registry (`authorization::auth_contract::AuthContract`) is a
separate crate of the repository whose source is not included; its semantics
are modelled from the spec where noted.
-/

/-- Principal / contract addresses are opaque identifiers. -/
abbrev Address := Nat

/-- `u64::MAX`. -/
def MAX_U64 : Nat := 2 ^ 64 - 1

/-- `u64::saturating_add`: clamp the sum at `MAX_U64`. -/
def satAdd (a b : Nat) : Nat := min (a + b) MAX_U64

/-- Role tags held at the authorization registry. -/
inductive Role where
  | COUNTER
  | REMOVER
  | NO_ROLE
  deriving DecidableEq, Repr

/-- Modelled from the spec: the Authorization Registry "maintains a mapping
from principal identity to a role tag"; a principal has at most one role at a
time.  The registry crate itself is not in the included sources. -/
structure RegistryState where
  roles : Address → Role

/-- Modelled from the spec: `verify_auth(subject, requiredRole)` "fails if
subject's current role ≠ requiredRole".  We embed it as the boolean success
condition of that check. -/
def verify_auth (reg : RegistryState) (subject : Address) (required : Role) : Bool :=
  reg.roles subject == required

/-- Modelled from the spec: `remove_role(subject, revokedBy)` "clears
subject's role", i.e. the subject maps to `NO_ROLE` afterwards; other
principals are untouched.  `revokedBy` does not affect the mapping. -/
def remove_role (reg : RegistryState) (subject : Address) (_revokedBy : Address) :
    RegistryState :=
  { roles := fun a => if a = subject then Role.NO_ROLE else reg.roles a }

/-- The instance storage of `CrossCounterContract`: the two `DataKey` entries,
each absent (`none`) until first written. -/
structure CounterStorage where
  count : Option Nat          -- DataKey::Count, a u64
  accessControl : Option Address -- DataKey::AccessControl, an Address
  deriving DecidableEq, Repr

/-- The whole system state an invocation can observe and mutate: the counter
contract's instance storage plus the external registry's role mapping. -/
structure SysState where
  store : CounterStorage
  registry : RegistryState

/-- Failure modes of an invocation (each is a panic / host abort in the
source, rolled back atomically by the environment). -/
inductive Err where
  | NotInitialized        -- "Contract has not been initialized!"
  | AuthorizationError    -- registry verify_auth failed
  | AuthenticationError   -- require_auth failed
  deriving DecidableEq, Repr

namespace CrossCounter

/-- `__constructor(e, controller)`: store the controller address under
`DataKey::AccessControl`. -/
def constructor (st : SysState) (controller : Address) : SysState :=
  { st with store := { st.store with accessControl := some controller } }

/-- `count(env)`: read `DataKey::Count`, defaulting to 0. -/
def count (st : SysState) : Nat :=
  st.store.count.getD 0

/-- `require_counter(env, counter)`: read `DataKey::AccessControl` (panic if
absent), have the registry `verify_auth(counter, COUNTER)` (abort if it
fails), then `counter.require_auth()`.  Self-authentication is passed in as
the set `authed` of principals that authenticated this invocation. -/
def require_counter (st : SysState) (authed : Address → Bool) (counter : Address) :
    Except Err Unit :=
  match st.store.accessControl with
  | none => .error .NotInitialized
  | some _controller =>
      if verify_auth st.registry counter Role.COUNTER then
        if authed counter then .ok () else .error .AuthenticationError
      else .error .AuthorizationError

/-- `remove_counter_role(env, counter)`: re-read `DataKey::AccessControl`
(panic if absent) and call the registry's
`remove_role(counter, env.current_contract_address())`.  `self` stands for
`env.current_contract_address()`. -/
def remove_counter_role (st : SysState) (self counter : Address) :
    Except Err RegistryState :=
  match st.store.accessControl with
  | none => .error .NotInitialized
  | some _controller => .ok (remove_role st.registry counter self)

/-- `add(env, counter, amount)`: run `require_counter`; read the count; if
`count.saturating_add(amount) > 100` remove the caller's role and store 0,
otherwise store the saturating sum; return the stored value.  An `Except`
error models the host aborting the invocation with no committed effects. -/
def add (st : SysState) (authed : Address → Bool) (self counter : Address)
    (amount : Nat) : Except Err (SysState × Nat) :=
  match require_counter st authed counter with
  | .error e => .error e
  | .ok () =>
      let c := st.store.count.getD 0
      if satAdd c amount > 100 then
        match remove_counter_role st self counter with
        | .error e => .error e
        | .ok reg' =>
            .ok ({ store := { st.store with count := some 0 }, registry := reg' }, 0)
      else
        let n := satAdd c amount
        .ok ({ st with store := { st.store with count := some n } }, n)

/-- `subtract(env, counter, amount)`: `counter.require_auth()`, then store and
return `count.saturating_sub(amount)` (on `Nat`, subtraction is already
clamped at 0). -/
def subtract (st : SysState) (authed : Address → Bool) (counter : Address)
    (amount : Nat) : Except Err (SysState × Nat) :=
  if authed counter then
    let c := st.store.count.getD 0
    .ok ({ st with store := { st.store with count := some (c - amount) } }, c - amount)
  else .error .AuthenticationError

/-- The state committed by the environment after an `add` invocation: the new
state on success, the unchanged pre-call state on abort (all-or-nothing). -/
def runAdd (st : SysState) (authed : Address → Bool) (self counter : Address)
    (amount : Nat) : SysState :=
  match add st authed self counter amount with
  | .ok (st', _) => st'
  | .error _ => st

/-- The state committed after a `subtract` invocation (rollback on abort). -/
def runSubtract (st : SysState) (authed : Address → Bool) (counter : Address)
    (amount : Nat) : SysState :=
  match subtract st authed counter amount with
  | .ok (st', _) => st'
  | .error _ => st

/-- One public mutating operation with its arguments. -/
inductive Op where
  | add (counter : Address) (amount : Nat)
  | subtract (counter : Address) (amount : Nat)

/-- Committed effect of one operation. -/
def execOp (authed : Address → Bool) (self : Address) (st : SysState) : Op → SysState
  | .add c a => runAdd st authed self c a
  | .subtract c a => runSubtract st authed c a

/-- Committed effect of a sequence of operations. -/
def execOps (authed : Address → Bool) (self : Address) (st : SysState)
    (ops : List Op) : SysState :=
  ops.foldl (execOp authed self) st

end CrossCounter

namespace Counter

/-- Baseline `CounterContract` storage: just `DataKey::Count`. -/
def count (s : Option Nat) : Nat := s.getD 0

/-- Baseline `add(env, amount)`: store and return the saturating sum. -/
def add (s : Option Nat) (amount : Nat) : Option Nat × Nat :=
  let c := s.getD 0
  let n := satAdd c amount
  (some n, n)

/-- Baseline `subtract(env, amount)`: store and return the saturating
difference. -/
def subtract (s : Option Nat) (amount : Nat) : Option Nat × Nat :=
  let c := s.getD 0
  let n := c - amount
  (some n, n)

end Counter

/-! ## Helper lemmas -/

theorem satAdd_le_MAX (a b : Nat) : satAdd a b ≤ MAX_U64 :=
  min_le_right _ _

theorem hundred_lt_MAX : 100 < MAX_U64 := by
  norm_num [MAX_U64]

/-- The saturating threshold guard of `add` fires exactly on the unbounded
sum, because the clamp value `MAX_U64` itself exceeds 100. -/
theorem satAdd_gt_hundred_iff (a b : Nat) : 100 < satAdd a b ↔ 100 < a + b := by
  unfold satAdd
  rw [lt_min_iff]
  exact ⟨fun h => h.1, fun h => ⟨h, hundred_lt_MAX⟩⟩

theorem satAdd_eq_of_le (a b : Nat) (h : a + b ≤ MAX_U64) : satAdd a b = a + b :=
  min_eq_left h

namespace CrossCounter

theorem require_counter_ok (st : SysState) (authed : Address → Bool)
    (counter r : Address)
    (hinit : st.store.accessControl = some r)
    (hrole : st.registry.roles counter = Role.COUNTER)
    (hauth : authed counter = true) :
    require_counter st authed counter = .ok () := by
  simp [require_counter, hinit, verify_auth, hrole, hauth]

end CrossCounter

/-! ## Concrete fixtures for witnesses -/

/-- A registry granting `COUNTER` to principal `p` only. -/
def regC (p : Address) : RegistryState :=
  ⟨fun a => if a = p then Role.COUNTER else Role.NO_ROLE⟩

/-- A registry with every role cleared. -/
def regNone : RegistryState := ⟨fun _ => Role.NO_ROLE⟩

/-- Every principal self-authenticated the invocation. -/
def allAuthed : Address → Bool := fun _ => true

/-- A constructed state: count 7, registry at address 5, role for principal 1. -/
def stInit : SysState :=
  { store := { count := some 7, accessControl := some 5 }, registry := regC 1 }

/-- A pre-construction state: nothing written yet. -/
def stFresh : SysState :=
  { store := { count := none, accessControl := none }, registry := regC 1 }

/-! ## Claim theorems -/

/-- C1: in any state where the principal holds role `COUNTER` at the registry
and has self-authenticated, if `count + amount > 100` then `add` succeeds
returning 0, stores `count = 0`, clears the principal's role at the registry
(via `remove_role`), and a subsequent `add` by the same principal fails the
authorization check. -/
theorem add_threshold_revocation
    (st : SysState) (authed : Address → Bool) (self principal r : Address)
    (amount : Nat)
    (hinit : st.store.accessControl = some r)
    (hrole : st.registry.roles principal = Role.COUNTER)
    (hauth : authed principal = true)
    (hthr : 100 < CrossCounter.count st + amount) :
    ∃ st', CrossCounter.add st authed self principal amount = .ok (st', 0) ∧
      st'.store.count = some 0 ∧
      st'.registry.roles principal = Role.NO_ROLE ∧
      ∀ amount', CrossCounter.add st' authed self principal amount' =
        .error Err.AuthorizationError := by
  have hrc := CrossCounter.require_counter_ok st authed principal r hinit hrole hauth
  have hsat : 100 < satAdd (st.store.count.getD 0) amount := by
    rw [satAdd_gt_hundred_iff]
    simpa [CrossCounter.count] using hthr
  refine ⟨{ store := { st.store with count := some 0 },
            registry := remove_role st.registry principal self }, ?_, rfl, ?_, ?_⟩
  · simp [CrossCounter.add, hrc, CrossCounter.remove_counter_role, hinit, hsat]
  · simp [remove_role]
  · intro amount'
    simp [CrossCounter.add, CrossCounter.require_counter, hinit, verify_auth, remove_role]

/-- C1 witness: from count 7 with role `COUNTER`, `add` of 100 trips the
threshold, zeroes the count, revokes the role, and blocks further adds. -/
theorem add_threshold_revocation_witness :
    ∃ st', CrossCounter.add stInit allAuthed 9 1 100 = .ok (st', 0) ∧
      st'.store.count = some 0 ∧
      st'.registry.roles 1 = Role.NO_ROLE ∧
      ∀ amount', CrossCounter.add st' allAuthed 9 1 amount' =
        .error Err.AuthorizationError :=
  add_threshold_revocation stInit allAuthed 9 1 5 100 rfl (by simp [stInit, regC])
    rfl (by norm_num [CrossCounter.count, stInit])

/-- C4: `subtract` needs only self-authentication: for any state (any role
mapping, including `NO_ROLE` everywhere) it succeeds, stores the saturating
difference, returns it, and leaves the registry and the config untouched. -/
theorem subtract_bypass
    (st : SysState) (authed : Address → Bool) (principal : Address) (amount : Nat)
    (hauth : authed principal = true) :
    CrossCounter.subtract st authed principal amount =
      .ok ({ st with store :=
               { st.store with count := some (CrossCounter.count st - amount) } },
           CrossCounter.count st - amount) := by
  simp [CrossCounter.subtract, hauth, CrossCounter.count]

/-- C4 witness: a principal with no role at all subtracts successfully. -/
theorem subtract_bypass_witness :
    CrossCounter.subtract
        { store := { count := some 7, accessControl := some 5 }, registry := regNone }
        allAuthed 1 2 =
      .ok ({ store := { count := some 5, accessControl := some 5 },
             registry := regNone }, 5) :=
  subtract_bypass
    { store := { count := some 7, accessControl := some 5 }, registry := regNone }
    allAuthed 1 2 rfl

/-- C5: an authorized, self-authenticated `add` whose saturating tentative sum
is at most 100 stores that sum, returns it, and leaves the registry (and the
config) untouched. -/
theorem add_below_threshold
    (st : SysState) (authed : Address → Bool) (self principal r : Address)
    (amount : Nat)
    (hinit : st.store.accessControl = some r)
    (hrole : st.registry.roles principal = Role.COUNTER)
    (hauth : authed principal = true)
    (hthr : satAdd (CrossCounter.count st) amount ≤ 100) :
    CrossCounter.add st authed self principal amount =
      .ok ({ st with store :=
               { st.store with count := some (satAdd (CrossCounter.count st) amount) } },
           satAdd (CrossCounter.count st) amount) := by
  have hrc := CrossCounter.require_counter_ok st authed principal r hinit hrole hauth
  have hc : ¬ 100 < satAdd (st.store.count.getD 0) amount := by
    simpa [CrossCounter.count] using Nat.not_lt.mpr hthr
  simp [CrossCounter.add, hrc, hc, CrossCounter.count]

/-- C5 witness: `add` of 93 onto count 7 reaches exactly 100 and is stored
without any revocation. -/
theorem add_below_threshold_witness :
    CrossCounter.add stInit allAuthed 9 1 93 =
      .ok ({ stInit with store := { stInit.store with count := some 100 } }, 100) := by
  have h := add_below_threshold stInit allAuthed 9 1 5 93 rfl (by simp [stInit, regC])
    rfl (by norm_num [CrossCounter.count, stInit, satAdd, MAX_U64])
  simpa [CrossCounter.count, stInit, satAdd, MAX_U64] using h

/-- Inversion for `require_counter`: it succeeds exactly when the config is
set, the registry role check passes, and the caller self-authenticated. -/
theorem require_counter_ok_iff (st : SysState) (authed : Address → Bool)
    (counter : Address) :
    CrossCounter.require_counter st authed counter = .ok () ↔
      (∃ r, st.store.accessControl = some r) ∧
      st.registry.roles counter = Role.COUNTER ∧ authed counter = true := by
  rcases h : st.store.accessControl with _ | r
  · simp [CrossCounter.require_counter, h]
  · simp only [CrossCounter.require_counter, h]
    split_ifs with h1 h2 <;> simp_all [verify_auth]

/-- C3: with nothing yet written (no config, no count), `add` always fails
with the configuration error and commits nothing, while `count` reads 0 and a
self-authenticated `subtract` succeeds as if `count = 0`, never touching the
config. -/
theorem uninitialized_guard
    (st : SysState) (authed : Address → Bool) (self p q : Address)
    (amount amount' : Nat)
    (huninit : st.store.accessControl = none)
    (hcount : st.store.count = none)
    (hq : authed q = true) :
    CrossCounter.add st authed self p amount = .error Err.NotInitialized ∧
    CrossCounter.runAdd st authed self p amount = st ∧
    CrossCounter.count st = 0 ∧
    CrossCounter.subtract st authed q amount' =
      .ok ({ st with store := { st.store with count := some 0 } }, 0) := by
  refine ⟨?_, ?_, ?_, ?_⟩
  · simp [CrossCounter.add, CrossCounter.require_counter, huninit]
  · simp [CrossCounter.runAdd, CrossCounter.add, CrossCounter.require_counter, huninit]
  · simp [CrossCounter.count, hcount]
  · simp [CrossCounter.subtract, hq, hcount]

/-- C3 witness: on the fresh state, `add` fails fatally even for the
role-holding principal, `count` is 0, and `subtract` succeeds. -/
theorem uninitialized_guard_witness :
    CrossCounter.add stFresh allAuthed 9 1 3 = .error Err.NotInitialized ∧
    CrossCounter.runAdd stFresh allAuthed 9 1 3 = stFresh ∧
    CrossCounter.count stFresh = 0 ∧
    CrossCounter.subtract stFresh allAuthed 2 4 =
      .ok ({ stFresh with store := { stFresh.store with count := some 0 } }, 0) :=
  uninitialized_guard stFresh allAuthed 9 1 2 3 4 rfl rfl rfl

/-- C6: if any precondition of `add` fails — config unset, registry role check
failing, or self-authentication absent — the invocation returns an error and
the committed state is exactly the pre-call state (counter storage and
registry role mapping included). -/
theorem add_failure_frame
    (st : SysState) (authed : Address → Bool) (self principal : Address)
    (amount : Nat)
    (hfail : st.store.accessControl = none ∨
             st.registry.roles principal ≠ Role.COUNTER ∨
             authed principal = false) :
    (∃ e, CrossCounter.add st authed self principal amount = .error e) ∧
    CrossCounter.runAdd st authed self principal amount = st := by
  have hne : CrossCounter.require_counter st authed principal ≠ .ok () := by
    intro hok
    rw [require_counter_ok_iff] at hok
    obtain ⟨⟨r, hr⟩, hrole, hauth⟩ := hok
    rcases hfail with h | h | h
    · rw [h] at hr; exact Option.noConfusion hr
    · exact h hrole
    · rw [hauth] at h; exact Bool.noConfusion h
  rcases hre : CrossCounter.require_counter st authed principal with e | u
  · exact ⟨⟨e, by simp [CrossCounter.add, hre]⟩,
      by simp [CrossCounter.runAdd, CrossCounter.add, hre]⟩
  · cases u
    exact absurd hre hne

/-- C6 witness: with the role missing at the registry, `add` errors and the
committed state is the pre-call state. -/
theorem add_failure_frame_witness :
    (∃ e, CrossCounter.add
        { store := { count := some 7, accessControl := some 5 }, registry := regNone }
        allAuthed 9 1 3 = .error e) ∧
    CrossCounter.runAdd
        { store := { count := some 7, accessControl := some 5 }, registry := regNone }
        allAuthed 9 1 3 =
      { store := { count := some 7, accessControl := some 5 }, registry := regNone } :=
  add_failure_frame
    { store := { count := some 7, accessControl := some 5 }, registry := regNone }
    allAuthed 9 1 3 (Or.inr (Or.inl (by simp [regNone])))

/-- C2: under the same authorization hypotheses, the revocation penalty fires
exactly when the unbounded sum `count + amount` exceeds 100 — in particular it
still fires when that sum also exceeds `MAX_U64` — because the guard compares
`satAdd count amount` with 100 and the clamp `MAX_U64` itself exceeds 100. -/
theorem add_penalty_presaturation
    (st : SysState) (authed : Address → Bool) (self principal r : Address)
    (amount : Nat)
    (hinit : st.store.accessControl = some r)
    (hrole : st.registry.roles principal = Role.COUNTER)
    (hauth : authed principal = true) :
    ((∃ st', CrossCounter.add st authed self principal amount = .ok (st', 0) ∧
        st'.registry.roles principal = Role.NO_ROLE) ↔
      100 < CrossCounter.count st + amount) ∧
    (MAX_U64 < CrossCounter.count st + amount →
      ∃ st', CrossCounter.add st authed self principal amount = .ok (st', 0) ∧
        st'.registry.roles principal = Role.NO_ROLE) := by
  have hrc := CrossCounter.require_counter_ok st authed principal r hinit hrole hauth
  have key : 100 < CrossCounter.count st + amount →
      ∃ st', CrossCounter.add st authed self principal amount = .ok (st', 0) ∧
        st'.registry.roles principal = Role.NO_ROLE := by
    intro h
    have hsat : 100 < satAdd (st.store.count.getD 0) amount := by
      rw [satAdd_gt_hundred_iff]
      simpa [CrossCounter.count] using h
    exact ⟨{ store := { st.store with count := some 0 },
             registry := remove_role st.registry principal self },
      by simp [CrossCounter.add, hrc, CrossCounter.remove_counter_role, hinit, hsat],
      by simp [remove_role]⟩
  refine ⟨⟨?_, key⟩, fun hmax => key (lt_trans hundred_lt_MAX hmax)⟩
  rintro ⟨st', hok, hrole'⟩
  by_contra hgt
  have hle : st.store.count.getD 0 + amount ≤ 100 := by
    have := Nat.not_lt.mp hgt
    simpa [CrossCounter.count] using this
  have hc : ¬ 100 < satAdd (st.store.count.getD 0) amount := by
    rw [satAdd_gt_hundred_iff]
    omega
  have hadd : CrossCounter.add st authed self principal amount =
      .ok ({ st with store :=
               { st.store with count := some (satAdd (st.store.count.getD 0) amount) } },
           satAdd (st.store.count.getD 0) amount) := by
    simp [CrossCounter.add, hrc, hc]
  rw [hadd, Except.ok.injEq, Prod.mk.injEq] at hok
  obtain ⟨hst, -⟩ := hok
  rw [← hst] at hrole'
  simp only [] at hrole'
  rw [hrole] at hrole'
  exact Role.noConfusion hrole'

/-- C2 witness: at count 7 the iff and the overflow implication hold for
amount 100. -/
theorem add_penalty_presaturation_witness :
    ((∃ st', CrossCounter.add stInit allAuthed 9 1 100 = .ok (st', 0) ∧
        st'.registry.roles 1 = Role.NO_ROLE) ↔
      100 < CrossCounter.count stInit + 100) ∧
    (MAX_U64 < CrossCounter.count stInit + 100 →
      ∃ st', CrossCounter.add stInit allAuthed 9 1 100 = .ok (st', 0) ∧
        st'.registry.roles 1 = Role.NO_ROLE) :=
  add_penalty_presaturation stInit allAuthed 9 1 5 100 rfl (by simp [stInit, regC]) rfl

/-- A successful `add` stores exactly the returned value, that value is at
most 100, and the config key is untouched. -/
theorem add_ok_inv (st : SysState) (authed : Address → Bool)
    (self counter : Address) (amount : Nat) (st' : SysState) (n : Nat)
    (h : CrossCounter.add st authed self counter amount = .ok (st', n)) :
    st'.store.count = some n ∧ n ≤ 100 ∧
    st'.store.accessControl = st.store.accessControl := by
  rcases hre : CrossCounter.require_counter st authed counter with e | u
  · simp [CrossCounter.add, hre] at h
  · cases u
    by_cases hc : 100 < satAdd (st.store.count.getD 0) amount
    · rcases hac : st.store.accessControl with _ | r
      · simp [CrossCounter.add, hre, hc, CrossCounter.remove_counter_role, hac] at h
      · have hadd : CrossCounter.add st authed self counter amount =
            .ok ({ store := { st.store with count := some 0 },
                   registry := remove_role st.registry counter self }, 0) := by
          simp [CrossCounter.add, hre, hc, CrossCounter.remove_counter_role, hac]
        rw [hadd, Except.ok.injEq, Prod.mk.injEq] at h
        obtain ⟨hst, hn⟩ := h
        subst hn
        rw [← hst]
        simp [hac]
    · have hadd : CrossCounter.add st authed self counter amount =
          .ok ({ st with store :=
                   { st.store with count := some (satAdd (st.store.count.getD 0) amount) } },
               satAdd (st.store.count.getD 0) amount) := by
        simp [CrossCounter.add, hre, hc]
      rw [hadd, Except.ok.injEq, Prod.mk.injEq] at h
      obtain ⟨hst, hn⟩ := h
      subst hn
      rw [← hst]
      refine ⟨rfl, Nat.not_lt.mp hc, rfl⟩

/-- A successful `subtract` stores the saturating difference, returns it, and
touches neither the config key nor the registry. -/
theorem subtract_ok_inv (st : SysState) (authed : Address → Bool)
    (counter : Address) (amount : Nat) (st' : SysState) (n : Nat)
    (h : CrossCounter.subtract st authed counter amount = .ok (st', n)) :
    st'.store.count = some (st.store.count.getD 0 - amount) ∧
    n = st.store.count.getD 0 - amount ∧
    st'.store.accessControl = st.store.accessControl ∧
    st'.registry = st.registry := by
  by_cases ha : authed counter
  · have hsub : CrossCounter.subtract st authed counter amount =
        .ok ({ st with store :=
                 { st.store with count := some (st.store.count.getD 0 - amount) } },
             st.store.count.getD 0 - amount) := by
      simp [CrossCounter.subtract, ha]
    rw [hsub, Except.ok.injEq, Prod.mk.injEq] at h
    obtain ⟨hst, hn⟩ := h
    subst hn
    rw [← hst]
    exact ⟨rfl, rfl, rfl, rfl⟩
  · simp [CrossCounter.subtract, ha] at h

/-- One committed operation never raises the count above `max count 100`. -/
theorem count_execOp_le (authed : Address → Bool) (self : Address)
    (st : SysState) (op : CrossCounter.Op) :
    CrossCounter.count (CrossCounter.execOp authed self st op) ≤
      max (CrossCounter.count st) 100 := by
  rcases op with ⟨c, a⟩ | ⟨c, a⟩
  · show CrossCounter.count (CrossCounter.runAdd st authed self c a) ≤ _
    unfold CrossCounter.runAdd
    rcases h : CrossCounter.add st authed self c a with e | ⟨st', n⟩
    · exact le_max_left _ _
    · obtain ⟨hcnt, hle, -⟩ := add_ok_inv st authed self c a st' n h
      exact le_max_of_le_right (by simpa [CrossCounter.count, hcnt] using hle)
  · show CrossCounter.count (CrossCounter.runSubtract st authed c a) ≤ _
    unfold CrossCounter.runSubtract
    rcases h : CrossCounter.subtract st authed c a with e | ⟨st', n⟩
    · exact le_max_left _ _
    · obtain ⟨hcnt, -, -, -⟩ := subtract_ok_inv st authed c a st' n h
      refine le_max_of_le_left ?_
      simp only [CrossCounter.count, hcnt, Option.getD_some]
      exact Nat.sub_le _ _

/-- A committed sequence never raises the count above `max count 100`. -/
theorem count_execOps_le (authed : Address → Bool) (self : Address)
    (ops : List CrossCounter.Op) (st : SysState) :
    CrossCounter.count (CrossCounter.execOps authed self st ops) ≤
      max (CrossCounter.count st) 100 := by
  induction ops generalizing st with
  | nil => exact le_max_left _ _
  | cons op ops ih =>
      have hstep :
          CrossCounter.execOps authed self st (op :: ops) =
            CrossCounter.execOps authed self (CrossCounter.execOp authed self st op) ops :=
        rfl
      rw [hstep]
      calc CrossCounter.count
            (CrossCounter.execOps authed self (CrossCounter.execOp authed self st op) ops)
          ≤ max (CrossCounter.count (CrossCounter.execOp authed self st op)) 100 :=
            ih (CrossCounter.execOp authed self st op)
        _ ≤ max (max (CrossCounter.count st) 100) 100 :=
            max_le_max (count_execOp_le authed self st op) le_rfl
        _ = max (CrossCounter.count st) 100 := by rw [max_assoc, max_self]

/-- C7: from any state whose count is a `u64` value, every committed sequence
of `add`/`subtract` operations keeps `count ≤ MAX_U64`; and no operation is
rejected for range reasons — with the authorization checks satisfied, `add`
and `subtract` succeed for every amount. -/
theorem saturation_bounds
    (st : SysState) (authed : Address → Bool) (self : Address)
    (ops : List CrossCounter.Op)
    (hle : CrossCounter.count st ≤ MAX_U64) :
    CrossCounter.count (CrossCounter.execOps authed self st ops) ≤ MAX_U64 ∧
    (∀ (st' : SysState) (principal r : Address) (amount : Nat),
        st'.store.accessControl = some r →
        st'.registry.roles principal = Role.COUNTER →
        authed principal = true →
        ∃ out, CrossCounter.add st' authed self principal amount = .ok out) ∧
    (∀ (st' : SysState) (principal : Address) (amount : Nat),
        authed principal = true →
        ∃ out, CrossCounter.subtract st' authed principal amount = .ok out) := by
  refine ⟨?_, ?_, ?_⟩
  · exact (count_execOps_le authed self ops st).trans
      (max_le hle (le_of_lt hundred_lt_MAX))
  · intro st' principal r amount hinit hrole hauth
    have hrc := CrossCounter.require_counter_ok st' authed principal r hinit hrole hauth
    by_cases hc : 100 < satAdd (st'.store.count.getD 0) amount
    · exact ⟨({ store := { st'.store with count := some 0 },
                registry := remove_role st'.registry principal self }, 0),
        by simp [CrossCounter.add, hrc, hc, CrossCounter.remove_counter_role, hinit]⟩
    · exact ⟨({ st' with store :=
                  { st'.store with count := some (satAdd (st'.store.count.getD 0) amount) } },
               satAdd (st'.store.count.getD 0) amount),
        by simp [CrossCounter.add, hrc, hc]⟩
  · intro st' principal amount hauth
    exact ⟨({ st' with store :=
                { st'.store with count := some (st'.store.count.getD 0 - amount) } },
             st'.store.count.getD 0 - amount),
      by simp [CrossCounter.subtract, hauth]⟩

/-- C7 witness: from the fresh state, a sample sequence stays within bounds
and the success conjuncts hold. -/
theorem saturation_bounds_witness :
    CrossCounter.count (CrossCounter.execOps allAuthed 9 stFresh
        [CrossCounter.Op.add 1 5, CrossCounter.Op.subtract 2 3]) ≤ MAX_U64 ∧
    (∀ (st' : SysState) (principal r : Address) (amount : Nat),
        st'.store.accessControl = some r →
        st'.registry.roles principal = Role.COUNTER →
        allAuthed principal = true →
        ∃ out, CrossCounter.add st' allAuthed 9 principal amount = .ok out) ∧
    (∀ (st' : SysState) (principal : Address) (amount : Nat),
        allAuthed principal = true →
        ∃ out, CrossCounter.subtract st' allAuthed principal amount = .ok out) :=
  saturation_bounds stFresh allAuthed 9
    [CrossCounter.Op.add 1 5, CrossCounter.Op.subtract 2 3]
    (by norm_num [CrossCounter.count, stFresh, MAX_U64])

/-- C10: starting from the default state (`Count` never written), every
committed sequence of operations leaves `count ≤ 100`: a successful `add`
stores at most 100 (or resets to 0) and `subtract` never increases the
count. -/
theorem count_bounded_by_hundred
    (st : SysState) (authed : Address → Bool) (self : Address)
    (ops : List CrossCounter.Op)
    (hdef : st.store.count = none) :
    CrossCounter.count (CrossCounter.execOps authed self st ops) ≤ 100 := by
  have h := count_execOps_le authed self ops st
  have h0 : CrossCounter.count st = 0 := by simp [CrossCounter.count, hdef]
  rw [h0] at h
  simpa using h

/-- C10 witness: a sample sequence from the fresh state stays at or below
100. -/
theorem count_bounded_by_hundred_witness :
    CrossCounter.count (CrossCounter.execOps allAuthed 9 stFresh
        [CrossCounter.Op.add 1 5, CrossCounter.Op.add 1 200,
         CrossCounter.Op.subtract 2 3]) ≤ 100 :=
  count_bounded_by_hundred stFresh allAuthed 9
    [CrossCounter.Op.add 1 5, CrossCounter.Op.add 1 200,
     CrossCounter.Op.subtract 2 3] rfl

/-- C8: the registry address is written by the constructor, and no public
operation mutates it afterwards: committed `add` and `subtract` leave the
`AccessControl` key exactly as it was (they write only the `Count` key), and
`subtract` leaves the registry untouched; `count` is a pure read
(`SysState → Nat`), mutating nothing. -/
theorem config_write_once
    (st : SysState) (authed : Address → Bool)
    (self controller principal : Address) (amount amount' : Nat) :
    (CrossCounter.constructor st controller).store.accessControl = some controller ∧
    (CrossCounter.runAdd st authed self principal amount).store.accessControl =
      st.store.accessControl ∧
    (CrossCounter.runSubtract st authed principal amount').store.accessControl =
      st.store.accessControl ∧
    (CrossCounter.runSubtract st authed principal amount').registry = st.registry := by
  refine ⟨rfl, ?_, ?_, ?_⟩
  · unfold CrossCounter.runAdd
    rcases h : CrossCounter.add st authed self principal amount with e | ⟨st', n⟩
    · rfl
    · exact (add_ok_inv st authed self principal amount st' n h).2.2
  · unfold CrossCounter.runSubtract
    rcases h : CrossCounter.subtract st authed principal amount' with e | ⟨st', n⟩
    · rfl
    · exact (subtract_ok_inv st authed principal amount' st' n h).2.2.1
  · unfold CrossCounter.runSubtract
    rcases h : CrossCounter.subtract st authed principal amount' with e | ⟨st', n⟩
    · rfl
    · exact (subtract_ok_inv st authed principal amount' st' n h).2.2.2

/-- C9: the baseline counter and the access-controlled counter compute the
identical saturating arithmetic over the persisted count.  For every state
(any role mapping, any config) a self-authenticated controlled `subtract`
stores and returns exactly the baseline `subtract`'s transition; for every
stored count and every amount — the saturation region included — the baseline
`add` is exactly the controlled `add`'s tentative computation
`satAdd count amount`; with the authorization layer satisfied and the
threshold not exceeded the controlled `add` itself stores and returns the
baseline `add`'s result; and both counters default to count 0 when the
`Count` key was never written. -/
theorem baseline_refinement :
    (∀ (st : SysState) (authed : Address → Bool) (principal : Address) (amount : Nat),
        authed principal = true →
        CrossCounter.subtract st authed principal amount =
          .ok ({ st with store :=
                   { st.store with count := (Counter.subtract st.store.count amount).1 } },
               (Counter.subtract st.store.count amount).2)) ∧
    (∀ (s : Option Nat) (amount : Nat),
        Counter.add s amount =
          (some (satAdd (Counter.count s) amount), satAdd (Counter.count s) amount)) ∧
    (∀ (st : SysState) (authed : Address → Bool) (self principal r : Address)
        (amount : Nat),
        st.store.accessControl = some r →
        st.registry.roles principal = Role.COUNTER →
        authed principal = true →
        satAdd (CrossCounter.count st) amount ≤ 100 →
        CrossCounter.add st authed self principal amount =
          .ok ({ st with store :=
                   { st.store with count := (Counter.add st.store.count amount).1 } },
               (Counter.add st.store.count amount).2)) ∧
    Counter.count none = 0 ∧
    (∀ st : SysState, st.store.count = none → CrossCounter.count st = 0) := by
  refine ⟨?_, ?_, ?_, rfl, ?_⟩
  · intro st authed principal amount hauth
    simp [CrossCounter.subtract, hauth, Counter.subtract]
  · intro s amount
    simp [Counter.add, Counter.count]
  · intro st authed self principal r amount hinit hrole hauth hthr
    have hrc := CrossCounter.require_counter_ok st authed principal r hinit hrole hauth
    have hc : ¬ 100 < satAdd (st.store.count.getD 0) amount := by
      simpa [CrossCounter.count] using Nat.not_lt.mpr hthr
    simp [CrossCounter.add, hrc, hc, Counter.add]
  · intro st h
    simp [CrossCounter.count, h]
